import Mathlib

/-!
Shallow embedding of the bunqldb query-execution mediation layer.

Source files embedded:
- src/internal/context.ts        (ambient context store helpers)
- src/internal/internal-db.ts    (dispatcher, logging overlay, connection provider, configuration)
- src/internal/transactional.ts  (the Transactional decorator; src/unnamed/part_000)

Conventions of the embedding:
- JavaScript values that can appear as bound query parameters are modelled by
  the inductive type JsValue.  Numbers are modelled as integers plus a separate
  NaN constructor (the source only ever converts them to strings).
- A JS object is modelled by the observations the source makes on it
  (Symbol(strings)/Symbol(values) introspection results, the strings / values /
  raw / query properties, the result of toString, thenability) together with
  its plain enumerable fields as JSON.stringify sees them.
- Code that can throw returns Except JsError; a JS try/catch block is a match
  on that Except.
- process.env is modelled by the Env structure; the mutable module-level
  variables of internal-db.ts form the GlobalState structure and are passed
  and returned explicitly.
-/

namespace BunqlDb

/-- Errors thrown synchronously by the embedded code. -/
inductive JsError where
  | typeError (msg : String)
  | configError (msg : String)
deriving DecidableEq, Repr

/-- Values that can appear as bound parameters of a query (the argument of
formatValue in internal-db.ts).  The objV constructor carries the observations
extractSqlFromFragment makes on an object plus its plain enumerable fields. -/
inductive JsValue where
  | nullV
  | undefinedV
  /-- a finite JS number (typeof number, not NaN) -/
  | numV (n : Int)
  /-- the JS number NaN (typeof number, but isNumber in the source is false) -/
  | nanV
  | bigintV (n : Int)
  | boolV (b : Bool)
  | strV (s : String)
  /-- a Date; the field is what toISOString returns -/
  | dateV (iso : String)
  | arrV (elts : List JsValue)
  /-- an object: Symbol(strings) when present and an array; Symbol(values)
  collapsed to a list as the source does (non-array becomes empty); the
  strings property when it is an array; whether a values key exists; the
  values property collapsed to a list; the raw property when a string; the
  query property when a string; the result of toString(); whether the object
  is thenable; and the plain enumerable fields used by JSON.stringify. -/
  | objV (symStrings : Option (List String)) (symValues : List JsValue)
         (stringsProp : Option (List String)) (hasValuesKey : Bool)
         (valuesArr : List JsValue) (rawProp : Option String)
         (queryProp : Option String) (toStringVal : String) (thenable : Bool)
         (plainFields : List (String × JsValue))

/-- Builds a plain object (no SQL-fragment observations) from its fields,
such as the rollback sentinel thrown by the Transactional decorator. -/
def mkPlainObj (fields : List (String × JsValue)) : JsValue :=
  .objV none [] none false [] none none "[object Object]" false fields

/-- Property lookup, modelling obj.key access on a plain object. -/
def getProp (v : JsValue) (key : String) : Option JsValue :=
  match v with
  | .objV _ _ _ _ _ _ _ _ _ fields =>
      (fields.find? (fun kv => kv.1 == key)).map (·.2)
  | _ => none

/-- Whether the first character list is an initial segment of the second. -/
def charListHasHead : List Char → List Char → Bool
  | [], _ => true
  | _ :: _, [] => false
  | p :: ps, c :: cs => p == c && charListHasHead ps cs

/-- Whether the pattern occurs as a contiguous segment at any position of the
character list. -/
def charListHasSegment (pat : List Char) : List Char → Bool
  | [] => charListHasHead pat []
  | c :: cs => charListHasHead pat (c :: cs) || charListHasSegment pat cs

/-- Whether a string contains the given pattern as a substring, modelling
String.prototype.includes. -/
def containsSub (s pat : String) : Bool :=
  charListHasSegment pat.toList s.toList

/-- String.prototype.startsWith. -/
def strStartsWith (s pre : String) : Bool := charListHasHead pre.toList s.toList

/-- String.prototype.trim: drops leading and trailing whitespace. -/
def jsTrim (s : String) : String :=
  (((s.toList.dropWhile Char.isWhitespace).reverse.dropWhile
      Char.isWhitespace).reverse).asString

/-- JSON string escaping for one character (the cases JSON.stringify handles
for the strings this code produces). -/
def jsonEscapeChar (c : Char) : String :=
  if c = '"' then "\\\""
  else if c = '\\' then "\\\\"
  else if c = '\n' then "\\n"
  else if c = '\t' then "\\t"
  else if c = '\r' then "\\r"
  else String.singleton c

/-- JSON quoting of a string, as JSON.stringify renders string values. -/
def jsonQuote (s : String) : String :=
  "\"" ++ String.join (s.toList.map jsonEscapeChar) ++ "\""

/-- Splits a character list into its maximal non-whitespace runs. -/
def wsChunks : List Char → List Char → List String
  | [], acc => if acc.isEmpty then [] else [acc.reverse.asString]
  | c :: cs, acc =>
      if c.isWhitespace then
        if acc.isEmpty then wsChunks cs []
        else acc.reverse.asString :: wsChunks cs []
      else wsChunks cs (c :: acc)

/-- Collapse every whitespace run to one space and trim, modelling
result.replace with a whitespace-run pattern followed by trim (the prod
branch of buildSqlString). -/
def collapseWs (s : String) : String :=
  String.intercalate " " (wsChunks s.toList [])

/-- isNumber from internal-db.ts: typeof number and not NaN. -/
def isNumber : JsValue → Bool
  | .numV _ => true
  | _ => false

mutual

/-- formatValue from internal-db.ts: renders one bound value for the
reconstructed log text.  Throws (returns .error) exactly where the source
throws: the uncaught JSON.stringify fallbacks. -/
def formatValue (prod : Bool) : JsValue → Except JsError String
  | .nullV => .ok "NULL"
  | .undefinedV => .ok "NULL"
  | .numV n => .ok (toString n)
  | .nanV => .ok "NaN"
  | .bigintV n => .ok (toString n)
  | .boolV b => .ok (if b then "TRUE" else "FALSE")
  | .dateV iso => .ok ("'" ++ iso ++ "'")
  | .arrV elts => do
      let parts ← arrayElemStrings elts
      pure ("[" ++ String.intercalate "," parts ++ "]")
  | .objV symStrings symValues stringsProp hasValuesKey valuesArr rawProp
        queryProp toStringVal thenable plainFields =>
      match extractSqlFromFragment prod symStrings symValues stringsProp
          hasValuesKey valuesArr rawProp queryProp toStringVal with
      | some s => .ok s
      | none =>
          if thenable then .ok "[SQL Fragment]"
          else do
            -- final fallback: JSON.stringify(value), NOT guarded by try/catch
            let fields ← jsonFieldStrings plainFields
            pure ("\x7b" ++ String.intercalate "," fields ++ "\x7d")
  | .strV s => .ok (jsonQuote s)
termination_by v => 3 * sizeOf v

/-- The element rendering of the Array branch of formatValue:
isNumber v gives String(v), otherwise JSON.stringify(v) with undefined
becoming the empty string under Array.prototype.join. -/
def arrayElemStrings : List JsValue → Except JsError (List String)
  | [] => .ok []
  | v :: vs => do
      let rest ← arrayElemStrings vs
      match v with
      | .numV n => pure (toString n :: rest)
      | w => do
          let s ← jsonStringify w
          pure ((s.getD "") :: rest)
termination_by l => 3 * sizeOf l + 1

/-- extractSqlFromFragment from internal-db.ts over the object observations;
the enclosing try/catch (which turns any throw into null) is the outer match. -/
def extractSqlFromFragment (prod : Bool) (symStrings : Option (List String))
    (symValues : List JsValue) (stringsProp : Option (List String))
    (hasValuesKey : Bool) (valuesArr : List JsValue)
    (rawProp queryProp : Option String) (toStringVal : String) :
    Option String :=
  let attempted : Except JsError (Option String) :=
    -- method 1: Symbol(strings) / Symbol(values)
    match symStrings with
    | some ss => (buildSqlString prod ss symValues).map some
    | none =>
      -- method 2: plain strings property that is an array, plus a values key
      match stringsProp, hasValuesKey with
      | some ss, true => (buildSqlString prod ss valuesArr).map some
      | _, _ =>
        -- method 3: raw property that is a string
        match rawProp with
        | some r => .ok (some r)
        | none =>
          -- method 4: query property that is a string
          match queryProp with
          | some q => .ok (some q)
          | none =>
            -- method 5: a useful toString()
            if toStringVal != "" && !(containsSub toStringVal "[object") then
              .ok (some toStringVal)
            else
              .ok none
  match attempted with
  | .ok r => r
  | .error _ => none
termination_by 3 * sizeOf symValues + 3 * sizeOf valuesArr + 3

/-- buildSqlString from internal-db.ts: interleaves the template strings with
the formatted values; collapses whitespace in prod, trims otherwise. -/
def buildSqlString (prod : Bool) (strings : List String)
    (values : List JsValue) : Except JsError String := do
  let body ← interleaveParts prod (strings.drop 1) values
  let raw := (strings.headD "") ++ body
  pure (if prod then collapseWs raw else jsTrim raw)
termination_by 3 * sizeOf values + 2

/-- The loop of buildSqlString after the leading string piece: for each value,
append formatValue of the value and then the next string piece (or the empty
string when the pieces run out). -/
def interleaveParts (prod : Bool) : List String → List JsValue →
    Except JsError String
  | _, [] => .ok ""
  | strs, v :: vs => do
      let fv ← formatValue prod v
      let rest ← interleaveParts prod (strs.drop 1) vs
      pure (fv ++ strs.headD "" ++ rest)
termination_by _ l => 3 * sizeOf l + 1

/-- JSON.stringify on the modelled values: returns none where JS returns
undefined, throws a TypeError on BigInt. -/
def jsonStringify : JsValue → Except JsError (Option String)
  | .nullV => .ok (some "null")
  | .undefinedV => .ok none
  | .numV n => .ok (some (toString n))
  | .nanV => .ok (some "null")
  | .bigintV _ => .error (.typeError "Do not know how to serialize a BigInt")
  | .boolV b => .ok (some (if b then "true" else "false"))
  | .strV s => .ok (some (jsonQuote s))
  | .dateV iso => .ok (some (jsonQuote iso))
  | .arrV elts => do
      let parts ← jsonArrayStrings elts
      pure (some ("[" ++ String.intercalate "," parts ++ "]"))
  | .objV _ _ _ _ _ _ _ _ _ plainFields => do
      let fields ← jsonFieldStrings plainFields
      pure (some ("\x7b" ++ String.intercalate "," fields ++ "\x7d"))
termination_by v => 3 * sizeOf v

/-- JSON serialization of array elements (undefined becomes null). -/
def jsonArrayStrings : List JsValue → Except JsError (List String)
  | [] => .ok []
  | v :: vs => do
      let s ← jsonStringify v
      let rest ← jsonArrayStrings vs
      pure ((s.getD "null") :: rest)
termination_by l => 3 * sizeOf l + 1

/-- JSON serialization of object fields (fields whose value serializes to
undefined are skipped). -/
def jsonFieldStrings : List (String × JsValue) → Except JsError (List String)
  | [] => .ok []
  | (k, v) :: rest => do
      let s ← jsonStringify v
      let tail ← jsonFieldStrings rest
      pure (match s with
            | some str => (jsonQuote k ++ ":" ++ str) :: tail
            | none => tail)
termination_by l => 3 * sizeOf l + 1

end

-- ============================================================
-- context.ts: the ambient context store
-- ============================================================

/-- DbContext from context.ts.  Both fields are optional in the source
(tx?: SQL, skipSqlLogging?: boolean); a transaction handle is identified by a
number.  The ambient store value is Option DbContext (undefined outside any
run scope). -/
structure DbContext where
  tx : Option Nat := none
  skipSqlLogging : Option Bool := none
deriving DecidableEq, Repr

/-- getTx from context.ts: dbContextStorage.getStore()?.tx. -/
def getTx (ctx : Option DbContext) : Option Nat := ctx.bind (·.tx)

/-- isSqlLoggingSkipped from context.ts:
dbContextStorage.getStore()?.skipSqlLogging ?? false. -/
def isSqlLoggingSkipped (ctx : Option DbContext) : Bool :=
  (ctx.bind (·.skipSqlLogging)).getD false

/-- The derived context installed by withSkippedSqlLogging in internal-db.ts:
a shallow copy of the current context with skipSqlLogging set to true
(spread of undefined gives the empty object). -/
def withSkippedContext (ctx : Option DbContext) : DbContext :=
  { tx := ctx.bind (·.tx), skipSqlLogging := some true }

/-- The derived context installed by the Transactional decorator:
a shallow copy of the captured context with tx set to the new handle. -/
def txScopeContext (ctx : Option DbContext) (t : Nat) : DbContext :=
  { tx := some t, skipSqlLogging := ctx.bind (·.skipSqlLogging) }

-- ============================================================
-- internal-db.ts: configuration state and environment
-- ============================================================

/-- A logger value (the source distinguishes only the default consoleLogger
from a caller-supplied logger object). -/
inductive SqlLogger where
  | consoleLogger
  | customLogger (name : String)
deriving DecidableEq, Repr

/-- SqlLoggingOptions from types.ts: enabled is required, logger optional. -/
structure SqlLoggingOptions where
  enabled : Bool
  logger : Option SqlLogger := none
deriving DecidableEq, Repr

/-- DbConfig, the argument of configureDb: both fields optional. -/
structure DbConfig where
  logging : Option SqlLoggingOptions := none
  dateStrings : Option Bool := none
deriving DecidableEq, Repr

inductive DbType where
  | mysql
  | postgres
deriving DecidableEq, Repr

/-- A JS number that may be NaN (the parsed DB_PORT). -/
inductive JsNum where
  | nan
  | int (i : Int)
deriving DecidableEq, Repr

/-- The pooled connection handle constructed by getBaseSql.  The connection
pool options (max 10, idleTimeout 30) are constants in the source and are not
observable through the claims, so the handle records only the configuration
form used. -/
inductive ConnHandle where
  | urlHandle (url : String)
  | discreteHandle (host : String) (port : JsNum) (user : String)
      (password : String) (database : String)
deriving DecidableEq, Repr

/-- The mutable module-level state of internal-db.ts. -/
structure GlobalState where
  sqlLoggingEnabled : Bool := false
  currentLogger : SqlLogger := .consoleLogger
  dateStringsEnabled : Bool := false
  baseSql : Option ConnHandle := none
  detectedDbType : Option DbType := none
deriving DecidableEq, Repr

/-- The initial module state of internal-db.ts. -/
def initialState : GlobalState := {}

/-- The environment variables the embedded code reads (process.env). -/
structure Env where
  DATABASE_URL : Option String := none
  DB_HOST : Option String := none
  DB_PORT : Option String := none
  DB_USER : Option String := none
  DB_PASSWORD : Option String := none
  DB_NAME : Option String := none
  TDD_MODE : Option String := none
  STAGE : Option String := none
  NODE_ENV : Option String := none
  BUN_TEST : Option String := none
  JEST_WORKER_ID : Option String := none
deriving DecidableEq, Repr

/-- JS truthiness of an environment string (undefined and the empty string
are falsy). -/
def jsTruthy : Option String → Bool
  | none => false
  | some s => !s.toList.isEmpty

/-- isTestEnv from internal-db.ts. -/
def isTestEnv (env : Env) : Bool :=
  env.NODE_ENV == some "test" || env.BUN_TEST.isSome || env.JEST_WORKER_ID.isSome

/-- isProdEnv from internal-db.ts. -/
def isProdEnv (env : Env) : Bool :=
  env.STAGE == some "prod" || env.NODE_ENV == some "production"

/-- setSqlLogging from internal-db.ts: sets the enabled flag and replaces the
logger, falling back to consoleLogger when no logger is given. -/
def setSqlLogging (g : GlobalState) (options : SqlLoggingOptions) : GlobalState :=
  { g with
    sqlLoggingEnabled := options.enabled
    currentLogger := match options.logger with
      | some l => l
      | none => .consoleLogger }

/-- configureDb from internal-db.ts: applies the logging options when the
logging field is present, and the dateStrings flag when present. -/
def configureDb (g : GlobalState) (config : DbConfig) : GlobalState :=
  let g1 := match config.logging with
    | some o => setSqlLogging g o
    | none => g
  match config.dateStrings with
  | some b => { g1 with dateStringsEnabled := b }
  | none => g1

-- ============================================================
-- internal-db.ts: connection provider
-- ============================================================

/-- DEFAULT_PORTS from internal-db.ts. -/
def DEFAULT_PORTS : DbType → Nat
  | .mysql => 3306
  | .postgres => 5432

/-- Number.parseInt(s, 10): leading whitespace skipped, optional sign, then
the longest run of digits; NaN when there are no digits. -/
def parseIntJs (s : String) : JsNum :=
  let t := s.toList.dropWhile Char.isWhitespace
  let (signNeg, rest) :=
    match t with
    | '-' :: r => (true, r)
    | '+' :: r => (false, r)
    | r => (false, r)
  let digits := rest.takeWhile Char.isDigit
  if digits.isEmpty then .nan
  else
    let n : Nat := digits.foldl (fun acc c => acc * 10 + (c.toNat - 48)) 0
    .int (if signNeg then -(n : Int) else (n : Int))

/-- detectDbType from internal-db.ts: mysql when DATABASE_URL starts with
the mysql scheme, otherwise postgres. -/
def detectDbType (env : Env) : DbType :=
  match env.DATABASE_URL with
  | some url => if strStartsWith url "mysql://" then .mysql else .postgres
  | none => .postgres

/-- getDbType from internal-db.ts: returns the cached detection or detects
and caches it. -/
def getDbTypeSt (g : GlobalState) (env : Env) : DbType × GlobalState :=
  match g.detectedDbType with
  | some t => (t, g)
  | none =>
      let t := detectDbType env
      (t, { g with detectedDbType := some t })

/-- getBaseSql from internal-db.ts: returns the cached handle; otherwise
builds one from DATABASE_URL, or from the discrete fields with the
flavor-specific default port, or throws the construction error. -/
def getBaseSql (g : GlobalState) (env : Env) :
    Except JsError (ConnHandle × GlobalState) :=
  match g.baseSql with
  | some h => .ok (h, g)
  | none =>
    if jsTruthy env.DATABASE_URL then
      let h := ConnHandle.urlHandle (env.DATABASE_URL.getD "")
      .ok (h, { g with baseSql := some h })
    else
      let (dbType, g1) := getDbTypeSt g env
      let port := if jsTruthy env.DB_PORT then parseIntJs (env.DB_PORT.getD "")
                  else .int (DEFAULT_PORTS dbType)
      if jsTruthy env.DB_HOST && jsTruthy env.DB_USER &&
          jsTruthy env.DB_PASSWORD && jsTruthy env.DB_NAME then
        let h := ConnHandle.discreteHandle (env.DB_HOST.getD "") port
          (env.DB_USER.getD "") (env.DB_PASSWORD.getD "") (env.DB_NAME.getD "")
        .ok (h, { g1 with baseSql := some h })
      else
        .error (.configError
          "missing database configuration: set DATABASE_URL or DB_HOST, DB_USER, DB_PASSWORD, DB_NAME")

/-- resetConnection from internal-db.ts: closes and clears the handle and the
cached flavor detection. -/
def resetConnection (g : GlobalState) : GlobalState :=
  { g with baseSql := none, detectedDbType := none }

/-- isDbConnected from internal-db.ts. -/
def isDbConnected (g : GlobalState) : Bool := g.baseSql.isSome

-- ============================================================
-- internal-db.ts: query dispatcher and logging overlay
-- ============================================================

inductive LoggingMode where
  | defaultMode
  | verbose
  | silent
deriving DecidableEq, Repr

/-- One invocation of the dispatcher: whether the first argument was a
template-strings array (template literal call), and the template pieces and
bound values when it was. -/
structure QueryCall where
  isTemplateCall : Bool
  strings : List String := []
  values : List JsValue := []

/-- The execution target resolved per invocation: the ambient transaction
handle or the pooled base connection. -/
inductive Target where
  | txTarget (t : Nat)
  | poolTarget (h : ConnHandle)
deriving DecidableEq, Repr

/-- What the apply trap of createSqlProxyWithMode produces before the result
is awaited: the resolved target, the module state afterwards, whether the
logging proxy was attached, and the reconstructed query text when it was. -/
structure DispatchPlan where
  target : Target
  gAfter : GlobalState
  attachLogging : Bool
  sqlString : Option String

/-- The dispatch-time should-log decision of createSqlProxyWithMode:
mode is verbose, or mode is default and the global flag is on and the
ambient suppression flag is off.  (The source writes this as a chain of
mode comparisons; the match is the same Boolean function.) -/
def modeShouldLog (mode : LoggingMode) (g : GlobalState)
    (ctx : Option DbContext) : Bool :=
  match mode with
  | .verbose => true
  | .defaultMode => g.sqlLoggingEnabled && !(isSqlLoggingSkipped ctx)
  | .silent => false

/-- The part of the apply trap after the execution target is resolved and
the query has been started: the silent early return, the should-log check,
the template-call check, and the construction of the logging proxy (with the
reconstructed query text, which can throw). -/
def applyLoggingDecision (mode : LoggingMode) (g : GlobalState) (env : Env)
    (ctx : Option DbContext) (call : QueryCall) (target : Target)
    (g1 : GlobalState) : Except JsError DispatchPlan :=
  match mode with
  | .silent =>
      .ok { target := target, gAfter := g1, attachLogging := false, sqlString := none }
  | _ =>
      if !(modeShouldLog mode g ctx) then
        .ok { target := target, gAfter := g1, attachLogging := false, sqlString := none }
      else if !call.isTemplateCall then
        .ok { target := target, gAfter := g1, attachLogging := false, sqlString := none }
      else
        match buildSqlString (isProdEnv env) call.strings call.values with
        | .error e => .error e
        | .ok s =>
            .ok { target := target, gAfter := g1, attachLogging := true, sqlString := some s }

/-- The apply trap of createSqlProxyWithMode from internal-db.ts.  The .error
results are the synchronous throws of the source (the construction error of
getBaseSql, or an uncaught throw from buildSqlString). -/
def dispatchQuery (mode : LoggingMode) (g : GlobalState) (env : Env)
    (ctx : Option DbContext) (call : QueryCall) :
    Except JsError DispatchPlan :=
  -- const tx = getTx(); const currentSql = tx || getBaseSql();
  match
    (match getTx ctx with
     | some t => Except.ok (Target.txTarget t, g)
     | none =>
        match getBaseSql g env with
        | .ok (h, g1) => .ok (Target.poolTarget h, g1)
        | .error e => .error e) with
  | .error e => .error e
  | .ok (target, g1) => applyLoggingDecision mode g env ctx call target g1

inductive LogLevel where
  | info
  | errorLevel
deriving DecidableEq, Repr

/-- Where an emission goes: the configured logger or the console (the test
environment branches of logQuery and logError print to the console). -/
inductive LogDest where
  | configured
  | console
deriving DecidableEq, Repr

structure LogEvent where
  level : LogLevel
  dest : LogDest
deriving DecidableEq, Repr

/-- The emissions of logQuery from internal-db.ts: one info-level message, to
the console in test environments and through the configured logger
otherwise. -/
def logQueryEvents (env : Env) : List LogEvent :=
  if isProdEnv env then [{ level := .info, dest := .configured }]
  else if isTestEnv env then [{ level := .info, dest := .console }]
  else [{ level := .info, dest := .configured }]

/-- The emissions of logError from internal-db.ts: three console.error prints
in test environments, otherwise one error-level call on the configured
logger. -/
def logErrorEvents (env : Env) : List LogEvent :=
  if isTestEnv env then
    [{ level := .errorLevel, dest := .console },
     { level := .errorLevel, dest := .console },
     { level := .errorLevel, dest := .console }]
  else [{ level := .errorLevel, dest := .configured }]

/-- The settled outcome of the underlying query execution, and of the value
the caller finally observes. -/
inductive ExecResult where
  | ok (v : JsValue)
  | err (e : JsValue)

/-- What the caller observes when awaiting the dispatched result. -/
structure AwaitedOutcome where
  events : List LogEvent
  result : ExecResult

/-- The success-logging decision inside the then handler of
createLoggingProxy: verbose always logs, default consults the suppression
flag re-read at await time, silent never reaches the proxy. -/
def awaitShouldLog (mode : LoggingMode) (ctxAtAwait : Option DbContext) : Bool :=
  match mode with
  | .verbose => true
  | .defaultMode => !(isSqlLoggingSkipped ctxAtAwait)
  | .silent => false

/-- The await-time behavior of the value returned by the apply trap: when the
logging proxy was not attached the pending result settles untouched; when it
was attached, the then handler of createLoggingProxy logs successes according
to the captured mode and the suppression flag read at await time, logs every
failure, and passes the settled value or error through unchanged. -/
def awaitQuery (env : Env) (plan : DispatchPlan) (mode : LoggingMode)
    (ctxAtAwait : Option DbContext) (exec : ExecResult) : AwaitedOutcome :=
  if !plan.attachLogging then { events := [], result := exec }
  else
    match exec with
    | .ok v =>
        if awaitShouldLog mode ctxAtAwait then
          { events := logQueryEvents env, result := .ok v }
        else { events := [], result := .ok v }
    | .err e => { events := logErrorEvents env, result := .err e }

/-- Number of info-level emissions. -/
def countInfo (evs : List LogEvent) : Nat :=
  (evs.filter (fun ev => ev.level == .info)).length

/-- Number of error-level emissions. -/
def countError (evs : List LogEvent) : Nat :=
  (evs.filter (fun ev => ev.level == .errorLevel)).length

-- ============================================================
-- transactional.ts: the Transactional decorator
-- ============================================================

/-- The rollback sentinel thrown in TDD mode:
an object with __tddRollback true and the computed result. -/
def tddSentinel (result : JsValue) : JsValue :=
  mkPlainObj [("__tddRollback", .boolV true), ("result", result)]

/-- The shape test of the catch handler in the Transactional decorator:
error is truthy, typeof object, and has both a __tddRollback key and a
result key.  The TDD-mode flag and the value stored under __tddRollback are
NOT consulted. -/
def isSentinelShaped : JsValue → Bool
  | .objV _ _ _ _ _ _ _ _ _ fields =>
      (fields.any (fun kv => kv.1 == "__tddRollback")) &&
      (fields.any (fun kv => kv.1 == "result"))
  | _ => false

inductive TxTerminal where
  | committed
  | rolledBack
deriving DecidableEq, Repr

/-- The observable outcome of one invocation of a Transactional-wrapped
method. -/
structure TranResult where
  /-- what the original caller observes -/
  outcome : ExecResult
  /-- whether baseSql.begin was entered -/
  openedTransaction : Bool
  /-- the ambient context the wrapped method ran under -/
  ranUnder : Option DbContext
  /-- the disposition of the opened transaction, none when none was opened -/
  disposition : Option TxTerminal
  /-- whether the TDD rollback sentinel was thrown inside the transaction -/
  sentinelRaised : Bool

/-- The Transactional decorator from transactional.ts.  originalMethod is the
wrapped unit of work as a function of the ambient context it observes;
freshTx stands for the transaction handle produced by baseSql.begin. -/
def transactionalRun (g : GlobalState) (env : Env) (ctx : Option DbContext)
    (originalMethod : Option DbContext → ExecResult) (freshTx : Nat) :
    Except JsError TranResult :=
  -- 1. reuse an already active transaction: run the method directly
  match getTx ctx with
  | some _ =>
      .ok { outcome := originalMethod ctx, openedTransaction := false,
            ranUnder := ctx, disposition := none, sentinelRaised := false }
  | none =>
      let isTddMode := env.TDD_MODE == some "true"
      let currentContext := ctx
      -- 2. const baseSql = getBaseSql() may throw synchronously
      match getBaseSql g env with
      | .error e => .error e
      | .ok _ =>
        let inner := txScopeContext currentContext freshTx
        let bodyOutcome := originalMethod (some inner)
        let raised := isTddMode &&
          (match bodyOutcome with | .ok _ => true | .err _ => false)
        -- the begin callback: in TDD mode a normal result is converted into
        -- the thrown sentinel; errors pass through and reject begin
        let cbResult : ExecResult :=
          match bodyOutcome with
          | .ok result => if isTddMode then .err (tddSentinel result) else .ok result
          | .err e => .err e
        match cbResult with
        | .ok v =>
            -- begin resolves: commit
            .ok { outcome := .ok v, openedTransaction := true,
                  ranUnder := some inner, disposition := some .committed,
                  sentinelRaised := raised }
        | .err e =>
            -- begin rejects: rollback, then the catch at the boundary
            if isSentinelShaped e then
              .ok { outcome := .ok ((getProp e "result").getD .undefinedV),
                    openedTransaction := true, ranUnder := some inner,
                    disposition := some .rolledBack, sentinelRaised := raised }
            else
              .ok { outcome := .err e, openedTransaction := true,
                    ranUnder := some inner, disposition := some .rolledBack,
                    sentinelRaised := raised }

-- ============================================================
-- Shared helper lemmas
-- ============================================================

/-- The sentinel carries the unit-of-work result under the result key. -/
theorem getProp_tddSentinel (v : JsValue) :
    getProp (tddSentinel v) "result" = some v := rfl

/-- The sentinel satisfies the shape test of the boundary catch. -/
theorem isSentinelShaped_tddSentinel (v : JsValue) :
    isSentinelShaped (tddSentinel v) = true := rfl

/-- logQuery always produces exactly one info-level emission. -/
theorem countInfo_logQueryEvents (env : Env) :
    countInfo (logQueryEvents env) = 1 := by
  unfold logQueryEvents
  split
  · rfl
  · split <;> rfl

/-- logQuery never produces an error-level emission. -/
theorem countError_logQueryEvents (env : Env) :
    countError (logQueryEvents env) = 0 := by
  unfold logQueryEvents
  split
  · rfl
  · split <;> rfl

/-- No emissions means zero info-level emissions. -/
theorem countInfo_nil : countInfo [] = 0 := rfl

/-- No emissions means zero error-level emissions. -/
theorem countError_nil : countError [] = 0 := rfl

/-- logError always produces at least one error-level emission. -/
theorem countError_logErrorEvents_pos (env : Env) :
    0 < countError (logErrorEvents env) := by
  unfold logErrorEvents
  split <;> decide

/-- A successful dispatch plan carries the resolved execution target. -/
theorem applyLoggingDecision_target (mode : LoggingMode) (g : GlobalState)
    (env : Env) (ctx : Option DbContext) (call : QueryCall) (target : Target)
    (g1 : GlobalState) (plan : DispatchPlan)
    (hd : applyLoggingDecision mode g env ctx call target g1 = .ok plan) :
    plan.target = target := by
  unfold applyLoggingDecision at hd
  repeat' split at hd
  all_goals first
    | (obtain rfl := (Except.ok.inj hd).symm; rfl)
    | simp at hd

/-- On a template call whose text reconstruction succeeds, the logging proxy
is attached exactly when the dispatch-time should-log decision is true. -/
theorem applyLoggingDecision_attach (mode : LoggingMode) (g : GlobalState)
    (env : Env) (ctx : Option DbContext) (call : QueryCall) (target : Target)
    (g1 : GlobalState) (plan : DispatchPlan) (s : String)
    (hT : call.isTemplateCall = true)
    (hB : buildSqlString (isProdEnv env) call.strings call.values = .ok s)
    (hd : applyLoggingDecision mode g env ctx call target g1 = .ok plan) :
    plan.attachLogging = modeShouldLog mode g ctx := by
  unfold applyLoggingDecision at hd
  cases mode with
  | silent => obtain rfl := (Except.ok.inj hd).symm; rfl
  | verbose =>
      simp only [modeShouldLog, Bool.not_true, Bool.false_eq_true, if_false,
        hT, hB] at hd ⊢
      obtain rfl := (Except.ok.inj hd).symm; rfl
  | defaultMode =>
      simp only [modeShouldLog] at hd ⊢
      cases hflag : g.sqlLoggingEnabled && !(isSqlLoggingSkipped ctx) with
      | true =>
          simp only [hflag, Bool.not_true, Bool.false_eq_true, if_false, hT,
            hB] at hd
          obtain rfl := (Except.ok.inj hd).symm; rfl
      | false =>
          simp only [hflag, Bool.not_false, if_true] at hd
          obtain rfl := (Except.ok.inj hd).symm; rfl

/-- Eliminating a successful dispatch into the resolved target and the
logging decision applied to it. -/
theorem dispatchQuery_to_decision (mode : LoggingMode) (g : GlobalState)
    (env : Env) (ctx : Option DbContext) (call : QueryCall)
    (plan : DispatchPlan)
    (hd : dispatchQuery mode g env ctx call = .ok plan) :
    ∃ target g1, applyLoggingDecision mode g env ctx call target g1 = .ok plan := by
  unfold dispatchQuery at hd
  split at hd
  · simp at hd
  · exact ⟨_, _, hd⟩

-- ============================================================
-- Claim theorems
-- ============================================================

/-- C2: when an active transaction is already present in the ambient context,
a Transactional-wrapped invocation runs the wrapped function directly under
the unchanged context (so nested scopes reuse the outer transaction handle),
opens no second transaction, and raises no sentinel. -/
theorem transactional_nested_reuses_ambient_tx (g : GlobalState) (env : Env)
    (ctx : Option DbContext) (originalMethod : Option DbContext → ExecResult)
    (freshTx t : Nat) (h : getTx ctx = some t) :
    transactionalRun g env ctx originalMethod freshTx =
      .ok { outcome := originalMethod ctx, openedTransaction := false,
            ranUnder := ctx, disposition := none, sentinelRaised := false } := by
  unfold transactionalRun
  rw [h]

/-- Witness for C2 at a concrete nested invocation. -/
theorem transactional_nested_reuses_ambient_tx_witness :
    transactionalRun initialState {} (some { tx := some 1 })
        (fun _ => ExecResult.ok (.numV 5)) 9 =
      .ok { outcome := ExecResult.ok (.numV 5), openedTransaction := false,
            ranUnder := some { tx := some 1 }, disposition := none,
            sentinelRaised := false } :=
  transactional_nested_reuses_ambient_tx initialState {} (some { tx := some 1 })
    (fun _ => ExecResult.ok (.numV 5)) 9 1 rfl

/-- C3: with forced-rollback test mode enabled and no ambient transaction,
the transaction always rolls back, the caller receives exactly the unit of
work's own outcome (the carried value on normal completion, such as the
unchanged error on a genuine failure), and the rollback sentinel is raised
inside the transaction exactly on the normal-completion path. -/
theorem forced_rollback_returns_result (g : GlobalState) (env : Env)
    (ctx : Option DbContext) (originalMethod : Option DbContext → ExecResult)
    (freshTx : Nat) (bg : ConnHandle) (g2 : GlobalState)
    (hctx : getTx ctx = none)
    (htdd : env.TDD_MODE = some "true")
    (hbase : getBaseSql g env = .ok (bg, g2))
    (hgenuine : ∀ e, originalMethod (some (txScopeContext ctx freshTx)) = .err e →
        isSentinelShaped e = false) :
    ∃ r, transactionalRun g env ctx originalMethod freshTx = .ok r ∧
      r.disposition = some .rolledBack ∧
      r.outcome = originalMethod (some (txScopeContext ctx freshTx)) ∧
      r.sentinelRaised =
        (match originalMethod (some (txScopeContext ctx freshTx)) with
         | .ok _ => true
         | .err _ => false) := by
  cases hbody : originalMethod (some (txScopeContext ctx freshTx)) with
  | ok v =>
      refine ⟨{ outcome := .ok v, openedTransaction := true,
                ranUnder := some (txScopeContext ctx freshTx),
                disposition := some .rolledBack, sentinelRaised := true },
              ?_, rfl, rfl, rfl⟩
      unfold transactionalRun
      rw [hctx, hbase]
      simp [htdd, hbody, isSentinelShaped_tddSentinel, getProp_tddSentinel]
  | err e =>
      refine ⟨{ outcome := .err e, openedTransaction := true,
                ranUnder := some (txScopeContext ctx freshTx),
                disposition := some .rolledBack, sentinelRaised := false },
              ?_, rfl, rfl, rfl⟩
      unfold transactionalRun
      rw [hctx, hbase]
      simp [htdd, hbody, hgenuine e hbody]

/-- Witness for C3 at a concrete unit of work returning 42 in TDD mode. -/
theorem forced_rollback_returns_result_witness :
    ∃ r, transactionalRun initialState
        { DATABASE_URL := some "postgres://db", TDD_MODE := some "true" } none
        (fun _ => ExecResult.ok (.numV 42)) 7 = .ok r ∧
      r.disposition = some .rolledBack ∧
      r.outcome = ExecResult.ok (.numV 42) ∧
      r.sentinelRaised = true :=
  forced_rollback_returns_result initialState
    { DATABASE_URL := some "postgres://db", TDD_MODE := some "true" } none
    (fun _ => ExecResult.ok (.numV 42)) 7 (.urlHandle "postgres://db")
    { initialState with baseSql := some (.urlHandle "postgres://db") }
    rfl rfl rfl (fun _ h => ExecResult.noConfusion h)

/-- C9: the context derived by withSkippedSqlLogging sets the suppression
flag and preserves the active transaction; the context derived on entering a
transaction scope installs the new transaction and preserves the inherited
suppression flag.  (Derivation builds a new DbContext value; the previous
context value is untouched by construction in this pure embedding, exactly
as the source spreads the old object into a fresh one.) -/
theorem context_derivation_preserves_unrelated_fields
    (ctx : Option DbContext) (t : Nat) :
    getTx (some (withSkippedContext ctx)) = getTx ctx ∧
    (withSkippedContext ctx).skipSqlLogging = some true ∧
    getTx (some (txScopeContext ctx t)) = some t ∧
    (txScopeContext ctx t).skipSqlLogging = ctx.bind (fun c => c.skipSqlLogging) :=
  ⟨rfl, rfl, rfl, rfl⟩

/-- C10: the boundary catch checks only for the presence of the
__tddRollback and result keys; even with forced-rollback mode off (here: for
every environment), a rejection carrying both keys is swallowed and its
result field is returned to the caller as a successful value, after
rollback. -/
theorem sentinel_unwrap_ignores_tdd_flag (g : GlobalState) (env : Env)
    (ctx : Option DbContext) (originalMethod : Option DbContext → ExecResult)
    (freshTx : Nat) (e v : JsValue) (bg : ConnHandle) (g2 : GlobalState)
    (hctx : getTx ctx = none)
    (hbase : getBaseSql g env = .ok (bg, g2))
    (herr : originalMethod (some (txScopeContext ctx freshTx)) = .err e)
    (hshape : isSentinelShaped e = true)
    (hres : getProp e "result" = some v) :
    transactionalRun g env ctx originalMethod freshTx =
      .ok { outcome := .ok v, openedTransaction := true,
            ranUnder := some (txScopeContext ctx freshTx),
            disposition := some .rolledBack, sentinelRaised := false } := by
  unfold transactionalRun
  rw [hctx, hbase]
  simp [herr, hshape, hres]

/-- Witness for C10: TDD mode is off (empty flag) and the rejected object
even has __tddRollback set to false, yet its result field is returned. -/
theorem sentinel_unwrap_ignores_tdd_flag_witness :
    transactionalRun initialState { DATABASE_URL := some "postgres://db" } none
        (fun _ => ExecResult.err
          (mkPlainObj [("__tddRollback", .boolV false), ("result", .numV 9)])) 3 =
      .ok { outcome := .ok (.numV 9), openedTransaction := true,
            ranUnder := some (txScopeContext none 3),
            disposition := some .rolledBack, sentinelRaised := false } :=
  sentinel_unwrap_ignores_tdd_flag initialState
    { DATABASE_URL := some "postgres://db" } none
    (fun _ => ExecResult.err
      (mkPlainObj [("__tddRollback", .boolV false), ("result", .numV 9)])) 3
    (mkPlainObj [("__tddRollback", .boolV false), ("result", .numV 9)])
    (.numV 9) (.urlHandle "postgres://db")
    { initialState with baseSql := some (.urlHandle "postgres://db") }
    rfl rfl rfl rfl rfl

/-- C1: every successful dispatch, in any of the three modes, resolves its
execution target per invocation: the ambient transaction handle when one is
installed in the chain context, and otherwise the pooled base connection
handle produced by getBaseSql; in particular a query issued while a
transaction is active never targets the pool. -/
theorem dispatch_resolves_target_per_invocation (mode : LoggingMode)
    (g : GlobalState) (env : Env) (ctx : Option DbContext) (call : QueryCall)
    (plan : DispatchPlan)
    (hd : dispatchQuery mode g env ctx call = .ok plan) :
    match getTx ctx with
    | some t => plan.target = Target.txTarget t
    | none => ∃ h g2, getBaseSql g env = .ok (h, g2) ∧
        plan.target = Target.poolTarget h := by
  unfold dispatchQuery at hd
  cases hctx : getTx ctx with
  | some t =>
      rw [hctx] at hd
      simp only [hctx]
      exact applyLoggingDecision_target mode g env ctx call _ _ plan hd
  | none =>
      rw [hctx] at hd
      simp only [hctx]
      cases hbase : getBaseSql g env with
      | error e => rw [hbase] at hd; simp at hd
      | ok p =>
          obtain ⟨h, g2⟩ := p
          rw [hbase] at hd
          exact ⟨h, g2, rfl,
            applyLoggingDecision_target mode g env ctx call _ _ plan hd⟩

/-- Witness for C1 at a concrete dispatch with an active transaction. -/
theorem dispatch_resolves_target_per_invocation_witness :
    match getTx (some { tx := some 4 }) with
    | some t =>
        ({ target := Target.txTarget 4, gAfter := initialState,
           attachLogging := false, sqlString := none } : DispatchPlan).target =
          Target.txTarget t
    | none => ∃ h g2, getBaseSql initialState {} = .ok (h, g2) ∧
        ({ target := Target.txTarget 4, gAfter := initialState,
           attachLogging := false, sqlString := none } : DispatchPlan).target =
          Target.poolTarget h :=
  dispatch_resolves_target_per_invocation .silent initialState {}
    (some { tx := some 4 }) { isTemplateCall := false }
    { target := Target.txTarget 4, gAfter := initialState,
      attachLogging := false, sqlString := none } rfl

/-- C4 counterexample: a silently dispatched template query whose execution
fails emits nothing at all — in particular no error-level emission — because
silent mode never attaches the logging proxy; this contradicts the claim that
failures are logged regardless of the mode. -/
theorem silent_failure_emits_nothing_counterexample :
    (dispatchQuery .silent initialState { DATABASE_URL := some "postgres://db" }
        none { isTemplateCall := true, strings := ["SELECT 1"], values := [] }).map
      (fun plan =>
        countError (awaitQuery { DATABASE_URL := some "postgres://db" } plan
          .silent none (.err (.strV "boom"))).events) = .ok 0 := rfl

/-- C4 amended: for a dispatched template query whose execution fails, the
reconstructed text and the error are emitted at error level exactly when the
logging wrapper was attached at dispatch time — verbose mode, or default mode
with the global logging setting on and the ambient suppression flag off; a
silent dispatch, or a default dispatch with logging disabled or suppressed,
emits nothing on failure.  In every case the original error is rethrown to
the caller unchanged. -/
theorem error_logged_iff_wrapper_attached (mode : LoggingMode)
    (g : GlobalState) (env : Env) (ctx : Option DbContext) (call : QueryCall)
    (plan : DispatchPlan) (s : String) (e : JsValue)
    (hT : call.isTemplateCall = true)
    (hB : buildSqlString (isProdEnv env) call.strings call.values = .ok s)
    (hd : dispatchQuery mode g env ctx call = .ok plan) :
    (awaitQuery env plan mode ctx (.err e)).result = .err e ∧
    (0 < countError (awaitQuery env plan mode ctx (.err e)).events ↔
      (mode = .verbose ∨ (mode = .defaultMode ∧ g.sqlLoggingEnabled = true ∧
        isSqlLoggingSkipped ctx = false))) := by
  obtain ⟨target, g1, hdec⟩ := dispatchQuery_to_decision mode g env ctx call plan hd
  have hattach := applyLoggingDecision_attach mode g env ctx call target g1
    plan s hT hB hdec
  unfold awaitQuery
  constructor
  · cases hatt : plan.attachLogging <;> simp [hatt]
  · rw [hattach]
    cases mode with
    | silent => simp [modeShouldLog, countError_nil]
    | verbose => simp [modeShouldLog, countError_logErrorEvents_pos env]
    | defaultMode =>
        cases hen : g.sqlLoggingEnabled <;>
          cases hskip : isSqlLoggingSkipped ctx <;>
            simp [modeShouldLog, hen, hskip, countError_nil,
              countError_logErrorEvents_pos env]

/-- Witness for C4 amended: a verbose dispatch with global logging disabled
still logs the failure, and rethrows it. -/
theorem error_logged_iff_wrapper_attached_witness :
    (awaitQuery { DATABASE_URL := some "postgres://db" }
        { target := Target.poolTarget (.urlHandle "postgres://db"),
          gAfter := { initialState with
            baseSql := some (.urlHandle "postgres://db") },
          attachLogging := true, sqlString := some "SELECT 1" }
        .verbose none (.err (.strV "boom"))).result = .err (.strV "boom") ∧
    (0 < countError (awaitQuery { DATABASE_URL := some "postgres://db" }
        { target := Target.poolTarget (.urlHandle "postgres://db"),
          gAfter := { initialState with
            baseSql := some (.urlHandle "postgres://db") },
          attachLogging := true, sqlString := some "SELECT 1" }
        .verbose none (.err (.strV "boom"))).events ↔
      (LoggingMode.verbose = .verbose ∨
        (LoggingMode.verbose = .defaultMode ∧
          initialState.sqlLoggingEnabled = true ∧
          isSqlLoggingSkipped none = false))) :=
  error_logged_iff_wrapper_attached .verbose initialState
    { DATABASE_URL := some "postgres://db" } none
    { isTemplateCall := true, strings := ["SELECT 1"], values := [] }
    { target := Target.poolTarget (.urlHandle "postgres://db"),
      gAfter := { initialState with
        baseSql := some (.urlHandle "postgres://db") },
      attachLogging := true, sqlString := some "SELECT 1" }
    "SELECT 1" (.strV "boom") rfl
    (by simp [buildSqlString, interleaveParts, Bind.bind, Except.bind]; rfl)
    (by simp [dispatchQuery, applyLoggingDecision, modeShouldLog, getBaseSql,
          jsTruthy, buildSqlString, interleaveParts, Bind.bind, Except.bind]
        rfl)

/-- C5: for a successfully completing dispatched template query (whose text
reconstruction succeeds), success logging follows mode precedence: silent
never logs; verbose logs exactly once even when the global setting is off;
default logs exactly once when the global setting is on and the ambient
suppression flag is off, and otherwise not at all. -/
theorem success_logging_mode_precedence (mode : LoggingMode)
    (g : GlobalState) (env : Env) (ctx : Option DbContext) (call : QueryCall)
    (plan : DispatchPlan) (s : String) (v : JsValue)
    (hT : call.isTemplateCall = true)
    (hB : buildSqlString (isProdEnv env) call.strings call.values = .ok s)
    (hd : dispatchQuery mode g env ctx call = .ok plan) :
    countInfo (awaitQuery env plan mode ctx (.ok v)).events =
      (match mode with
       | .silent => 0
       | .verbose => 1
       | .defaultMode =>
           if g.sqlLoggingEnabled && !(isSqlLoggingSkipped ctx) then 1 else 0) := by
  obtain ⟨target, g1, hdec⟩ := dispatchQuery_to_decision mode g env ctx call plan hd
  have hattach := applyLoggingDecision_attach mode g env ctx call target g1
    plan s hT hB hdec
  unfold awaitQuery
  rw [hattach]
  cases mode with
  | silent => simp [modeShouldLog, countInfo_nil]
  | verbose => simp [modeShouldLog, awaitShouldLog, countInfo_logQueryEvents env]
  | defaultMode =>
      cases hen : g.sqlLoggingEnabled <;>
        cases hskip : isSqlLoggingSkipped ctx <;>
          simp [modeShouldLog, awaitShouldLog, hen, hskip, countInfo_nil,
            countInfo_logQueryEvents env]

/-- Witness for C5: a verbose dispatch with global logging disabled logs
exactly once on success. -/
theorem success_logging_mode_precedence_witness :
    countInfo (awaitQuery { DATABASE_URL := some "postgres://db" }
        { target := Target.poolTarget (.urlHandle "postgres://db"),
          gAfter := { initialState with
            baseSql := some (.urlHandle "postgres://db") },
          attachLogging := true, sqlString := some "SELECT 1" }
        .verbose none (.ok (.numV 1))).events =
      (match LoggingMode.verbose with
       | .silent => 0
       | .verbose => 1
       | .defaultMode =>
           if initialState.sqlLoggingEnabled && !(isSqlLoggingSkipped none)
           then 1 else 0) :=
  success_logging_mode_precedence .verbose initialState
    { DATABASE_URL := some "postgres://db" } none
    { isTemplateCall := true, strings := ["SELECT 1"], values := [] }
    { target := Target.poolTarget (.urlHandle "postgres://db"),
      gAfter := { initialState with
        baseSql := some (.urlHandle "postgres://db") },
      attachLogging := true, sqlString := some "SELECT 1" }
    "SELECT 1" (.numV 1) rfl
    (by simp [buildSqlString, interleaveParts, Bind.bind, Except.bind]; rfl)
    (by simp [dispatchQuery, applyLoggingDecision, modeShouldLog, getBaseSql,
          jsTruthy, buildSqlString, interleaveParts, Bind.bind, Except.bind]
        rfl)

/-- C6: with no connection URL, the first call to getBaseSql (empty handle
cache) throws the construction error when the discrete host / user /
password / database fields are not all configured; and when they are all
configured but no port is set, the constructed handle uses the flavor
specific default port, with 3306 for mysql and 5432 for postgres. -/
theorem connection_configuration_contract (g : GlobalState) (env : Env)
    (h0 : g.baseSql = none)
    (hurl : jsTruthy env.DATABASE_URL = false) :
    ((jsTruthy env.DB_HOST && jsTruthy env.DB_USER &&
        jsTruthy env.DB_PASSWORD && jsTruthy env.DB_NAME) = false →
      ∃ m, getBaseSql g env = .error (.configError m)) ∧
    ((jsTruthy env.DB_HOST && jsTruthy env.DB_USER &&
        jsTruthy env.DB_PASSWORD && jsTruthy env.DB_NAME) = true →
      jsTruthy env.DB_PORT = false →
      ∃ g2, getBaseSql g env =
        .ok (.discreteHandle (env.DB_HOST.getD "")
              (.int (DEFAULT_PORTS (getDbTypeSt g env).1))
              (env.DB_USER.getD "") (env.DB_PASSWORD.getD "")
              (env.DB_NAME.getD ""), g2)) ∧
    DEFAULT_PORTS .mysql = 3306 ∧ DEFAULT_PORTS .postgres = 5432 := by
  refine ⟨?_, ?_, rfl, rfl⟩
  · intro hfields
    unfold getBaseSql
    rw [h0]
    rcases hty : getDbTypeSt g env with ⟨dt, g1⟩
    simp [hurl, hty, hfields]
  · intro hfields hport
    unfold getBaseSql
    rw [h0]
    rcases hty : getDbTypeSt g env with ⟨dt, g1⟩
    simp [hurl, hty, hfields, hport]

/-- Witness for C6: discrete postgres configuration with no port yields the
default port 5432; the error conjunct holds vacuously at this input. -/
theorem connection_configuration_contract_witness :
    ((jsTruthy (some "h") && jsTruthy (some "u") &&
        jsTruthy (some "p") && jsTruthy (some "d")) = false →
      ∃ m, getBaseSql initialState
        { DB_HOST := some "h", DB_USER := some "u", DB_PASSWORD := some "p",
          DB_NAME := some "d" } = .error (.configError m)) ∧
    ((jsTruthy (some "h") && jsTruthy (some "u") &&
        jsTruthy (some "p") && jsTruthy (some "d")) = true →
      jsTruthy none = false →
      ∃ g2, getBaseSql initialState
        { DB_HOST := some "h", DB_USER := some "u", DB_PASSWORD := some "p",
          DB_NAME := some "d" } =
        .ok (.discreteHandle ((some "h").getD "")
              (.int (DEFAULT_PORTS (getDbTypeSt initialState
                { DB_HOST := some "h", DB_USER := some "u",
                  DB_PASSWORD := some "p", DB_NAME := some "d" }).1))
              ((some "u").getD "") ((some "p").getD "")
              ((some "d").getD ""), g2)) ∧
    DEFAULT_PORTS .mysql = 3306 ∧ DEFAULT_PORTS .postgres = 5432 :=
  connection_configuration_contract initialState
    { DB_HOST := some "h", DB_USER := some "u", DB_PASSWORD := some "p",
      DB_NAME := some "d" } rfl rfl

/-- C7 counterexample: calling configureDb with the logging options present
but the logger field omitted does not retain the previously configured
logger: it is reset to the console default. -/
theorem configure_omitted_logger_not_retained_counterexample :
    (configureDb { initialState with currentLogger := .customLogger "appLogger" }
        { logging := some { enabled := true, logger := none },
          dateStrings := none }).currentLogger = .consoleLogger ∧
    ({ initialState with
        currentLogger := SqlLogger.customLogger "appLogger" } :
          GlobalState).currentLogger = .customLogger "appLogger" ∧
    SqlLogger.consoleLogger ≠ SqlLogger.customLogger "appLogger" :=
  ⟨rfl, rfl, by decide⟩

/-- C7 amended: configureDb is a partial update at the top level of its
options object: when the logging field is omitted, both the logging-enabled
setting and the configured logger retain their prior values; when the
dateStrings field is omitted, the date-strings setting retains its prior
value; calling configureDb with all fields omitted changes nothing.
However, when the logging field is provided, the logger is replaced by the
supplied logger, or reset to the console default when the nested logger
field is omitted, rather than retained. -/
theorem configure_partial_update_amended (g : GlobalState) (c : DbConfig) :
    (c.logging = none →
      (configureDb g c).sqlLoggingEnabled = g.sqlLoggingEnabled ∧
      (configureDb g c).currentLogger = g.currentLogger) ∧
    (c.dateStrings = none →
      (configureDb g c).dateStringsEnabled = g.dateStringsEnabled) ∧
    configureDb g {} = g ∧
    ((configureDb g c).currentLogger =
      match c.logging with
      | none => g.currentLogger
      | some o =>
          match o.logger with
          | some l => l
          | none => SqlLogger.consoleLogger) := by
  refine ⟨?_, ?_, rfl, ?_⟩
  · intro h
    cases hds : c.dateStrings <;> simp [configureDb, h, hds]
  · intro h
    cases hl : c.logging <;> simp [configureDb, setSqlLogging, h, hl]
  · rcases hl : c.logging with _ | ⟨en, lg⟩
    · cases hds : c.dateStrings <;> simp [configureDb, hl, hds]
    · cases hds : c.dateStrings <;> cases lg <;>
        simp [configureDb, setSqlLogging, hl, hds]

/-- Witness for C7 amended at a concrete state and the all-omitted options
object. -/
theorem configure_partial_update_amended_witness :
    (DbConfig.logging {} = none →
      (configureDb initialState {}).sqlLoggingEnabled =
        initialState.sqlLoggingEnabled ∧
      (configureDb initialState {}).currentLogger =
        initialState.currentLogger) ∧
    (DbConfig.dateStrings {} = none →
      (configureDb initialState {}).dateStringsEnabled =
        initialState.dateStringsEnabled) ∧
    configureDb initialState {} = initialState ∧
    ((configureDb initialState {}).currentLogger =
      match DbConfig.logging {} with
      | none => initialState.currentLogger
      | some o =>
          match o.logger with
          | some l => l
          | none => SqlLogger.consoleLogger) :=
  configure_partial_update_amended initialState {}

/-- C8: the best-effort log-text reconstruction is NOT total: an array bound
value containing a BigInt reaches the unguarded JSON.stringify fallback,
which throws a TypeError instead of producing a string or the placeholder
token (a logging malfunction that surfaces to the application, contradicting
the claim). -/
theorem format_value_throws_on_bigint_in_array :
    formatValue false (.arrV [.bigintV 1]) =
      .error (.typeError "Do not know how to serialize a BigInt") := by
  simp [formatValue, arrayElemStrings, jsonStringify, Bind.bind, Except.bind]

end BunqlDb
